import Mathlib

/-!
Shallow embedding of `src/resource.c` of xcb-util-xrm: the query
orchestrator `xcb_xrm_resource_get`, the value-coercion accessors
`xcb_xrm_resource_value`, `xcb_xrm_resource_value_long`,
`xcb_xrm_resource_value_bool`, and the lifecycle operation
`xcb_xrm_resource_free`.

Null pointers are modelled with `Option`; machine `long` is modelled as
`Int` bounded by `LONG_MIN`/`LONG_MAX` (64-bit). The external
collaborators that are not part of the sources under `src/` (the entry
parser from `entry.c`, the matching engine from `match.c`, `str2long`
from `util.c`, and libc's `strcasecmp`) are modelled from the spec; each
such definition says so in its doc comment.
-/

namespace XcbXrm

/-- Status code for success, `SUCCESS` in `util.h`. -/
def SUCCESS : Int := 0

/-- Generic failure magnitude, `FAILURE` in `util.h`; the code returns `-FAILURE`. -/
def FAILURE : Int := 1

/-- Minimum representable `long` (64-bit), the sentinel of `xcb_xrm_resource_value_long`. -/
def LONG_MIN : Int := -(2 ^ 63)

/-- Maximum representable `long` (64-bit). -/
def LONG_MAX : Int := 2 ^ 63 - 1

/-- A database entry: a hierarchical component path with its stored value.
The database layer is external; only its emptiness is inspected by `resource.c`. -/
structure DatabaseEntry where
  components : List String
  value : String

/-- The database, `xcb_xrm_database_t`: a (TAILQ) list of entries.
`TAILQ_EMPTY(database)` is emptiness of the list. -/
abbrev Database := List DatabaseEntry

/-- The result entity `xcb_xrm_resource_t`: it owns one textual value,
which is absent (`NULL`) when no match was found. `calloc` produces the
zero-initialised resource `{ value := none }`. -/
structure Resource where
  value : Option String
deriving DecidableEq

/-- ASCII-lowercasing of one character, as libc `tolower` acts on ASCII input. -/
def lowerChar (c : Char) : Char :=
  if 'A' ≤ c ∧ c ≤ 'Z' then Char.ofNat (c.toNat + 32) else c

/-- Modelled from the spec: libc `strcasecmp(a, b) == 0` (not part of the
repository), i.e. case-insensitive exact string equality. -/
def strcaseEq (a b : String) : Bool :=
  a.data.map lowerChar == b.data.map lowerChar

/-- Modelled from the spec: `str2long` from `util.c` (not under `src/`), the
"base-10 integer parse of the entire text (not just a prefix)". An optional
sign followed by one or more decimal digits, with no trailing garbage, parses
to its value when it fits the representable `long` range; everything else
(empty, non-numeric, trailing garbage, overflow) fails. -/
def str2long (s : String) : Option Int :=
  let signed : Int × List Char :=
    match s.data with
    | '-' :: rest => (-1, rest)
    | '+' :: rest => (1, rest)
    | l => (1, l)
  if signed.2 = [] ∨ ¬ signed.2.all Char.isDigit then none
  else
    let v : Int := signed.1 * (signed.2.foldl (fun a c => a * 10 + (c.toNat - 48)) 0 : Nat)
    if LONG_MIN ≤ v ∧ v ≤ LONG_MAX then some v else none

/-- Characters allowed inside one component of a query string: anything but
the tight separator and the wildcard markers. -/
def isComponentChar (c : Char) : Bool :=
  c ≠ '.' ∧ c ≠ '*' ∧ c ≠ '?'

/-- Splits a character list at every tight separator `.`; the empty list
yields one empty component, so `n` separators always yield `n + 1`
components. -/
def splitComponents : List Char → List (List Char)
  | [] => [[]]
  | c :: rest =>
    match splitComponents rest with
    | [] => [[]]
    | cur :: more => if c = '.' then [] :: cur :: more else (c :: cur) :: more

/-- Modelled from the spec: `xcb_xrm_entry_parse(text, &entry, true)` from
`entry.c` (not under `src/`), in the query (resolution) mode used by
`resource.c`: the text is tokenized into an ordered sequence of hierarchical
components; a fully qualified query must be non-empty, with every component
non-empty and free of wildcard markers, otherwise the parse fails and no
query representation is produced. -/
def xcb_xrm_entry_parse (s : String) : Option (List String) :=
  if s.data = [] then none
  else
    let comps := splitComponents s.data
    if comps.all (fun c => decide (c ≠ []) && c.all isComponentChar) then
      some (comps.map (fun c => String.mk c))
    else none

/-- The parser contract `component_count`, `xcb_xrm_entry_num_components`. -/
def xcb_xrm_entry_num_components (q : List String) : Nat :=
  q.length

/-- Modelled from the spec: the matching engine `xcb_xrm_match` from
`match.c` (not under `src/`). It returns a status and the resolved value to
store into the resource container: either a populated value (best match) or
an explicit "no match" outcome surfaced as a valid resource whose value is
absent — "no match" is not itself an error, so the status is non-negative
either way. The precedence/specificity algorithm is out of scope; this model
selects the first entry whose component path equals the name query. -/
def xcb_xrm_match (db : Database) (query_name : List String)
    (query_class : Option (List String)) : Int × Option String :=
  match db.find? (fun e => e.components == query_name) with
  | some e => (SUCCESS, some e.value)
  | none => (SUCCESS, none)

/-- Observable outcome of one `xcb_xrm_resource_get` call: the returned
status, the final value of the caller's `*_resource`, and an instrumentation
trace — whether `calloc` ran, how often the parser ran, whether the matcher
ran and whether its resource-container argument was `NULL` then, and the
alloc/free accounting of the parser-produced intermediate query
representations. -/
structure GetResult where
  status : Int
  out : Option Resource
  allocCalled : Bool
  parserCalls : Nat
  matcherCalled : Bool
  matcherContainerNull : Bool
  parsedAllocs : Nat
  parsedFrees : Nat

/-- State on arrival at the `done:` label of `xcb_xrm_resource_get`
(lines 92-95): the pending result plus the two intermediate query variables
`query_name` and `query_class` still live at that point. -/
structure DoneState where
  status : Int
  out : Option Resource
  allocCalled : Bool
  parserCalls : Nat
  matcherCalled : Bool
  matcherContainerNull : Bool
  parsedAllocs : Nat
  query_name : Option (List String)
  query_class : Option (List String)

/-- The `done:` block (lines 92-95): `xcb_xrm_entry_free` on both query
variables — a no-op on `NULL`, a release otherwise — then `return result`. -/
def doneBlock (s : DoneState) : GetResult :=
  { status := s.status
    out := s.out
    allocCalled := s.allocCalled
    parserCalls := s.parserCalls
    matcherCalled := s.matcherCalled
    matcherContainerNull := s.matcherContainerNull
    parsedAllocs := s.parsedAllocs
    parsedFrees :=
      (if s.query_name.isSome then 1 else 0) + (if s.query_class.isSome then 1 else 0) }

/-- The early-return outcome of the `database == NULL || TAILQ_EMPTY(database)`
check (lines 56-59): `*_resource = NULL` and `-FAILURE`, bypassing `done:`. -/
def noDatabaseResult : GetResult :=
  { status := -FAILURE, out := none, allocCalled := false, parserCalls := 0,
    matcherCalled := false, matcherContainerNull := false,
    parsedAllocs := 0, parsedFrees := 0 }

/-- Line 61, `*_resource = calloc(1, sizeof(struct xcb_xrm_resource_t))`: the
zero-initialised resource, or NULL when the allocation fails. -/
def callocResult (allocOk : Bool) : Option Resource :=
  if allocOk then some { value := none } else none

/-- Line 91's effect through the `resource` pointer: the matcher stores the
resolved value into the container when the container is non-NULL. -/
def storeValue (container : Option Resource) (v : Option String) : Option Resource :=
  match container with
  | some _ => some { value := v }
  | none => none

/-- Line 91, `result = xcb_xrm_match(database, query_name, query_class,
resource)`: the matcher runs against the (non-empty) database, its result is
stored through `resource` (the container `outRes`), and `done:` follows. -/
def runMatch (db : Database) (outRes : Option Resource) (query_name : List String)
    (query_class : Option (List String)) (parserCalls allocs : Nat) : GetResult :=
  let m := xcb_xrm_match db query_name query_class
  doneBlock { status := m.1, out := storeValue outRes m.2, allocCalled := true,
              parserCalls := parserCalls, matcherCalled := true,
              matcherContainerNull := outRes.isNone, parsedAllocs := allocs,
              query_name := some query_name, query_class := query_class }

/-- Lines 85-89, the arity check `query_class != NULL &&
num_components(query_name) != num_components(query_class)`: a mismatch goes
to `done:` with `-1`, otherwise the matcher is invoked. -/
def checkArity (db : Database) (outRes : Option Resource) (query_name : List String)
    (query_class : Option (List String)) (parserCalls allocs : Nat) : GetResult :=
  match query_class with
  | some qc =>
    if xcb_xrm_entry_num_components query_name ≠ xcb_xrm_entry_num_components qc then
      doneBlock { status := -1, out := outRes, allocCalled := true,
                  parserCalls := parserCalls, matcherCalled := false,
                  matcherContainerNull := false, parsedAllocs := allocs,
                  query_name := some query_name, query_class := some qc }
    else runMatch db outRes query_name (some qc) parserCalls allocs
  | none => runMatch db outRes query_name none parserCalls allocs

/-- Embedding of `xcb_xrm_resource_get` (resource.c lines 49-96). The
`database` argument is the possibly-`NULL` database; `allocOk` is whether
the one `calloc` of the call succeeds. The embedding assumes a legal call:
the caller's out-parameter `_resource` is a valid (non-`NULL`) address. -/
def xcb_xrm_resource_get (database : Option Database) (res_name : Option String)
    (res_class : Option String) (allocOk : Bool) : GetResult :=
  -- lines 56-59: `database == NULL || TAILQ_EMPTY(database)` returns early,
  -- not through `done:`, with `*_resource = NULL`.
  match database with
  | none => noDatabaseResult
  | some [] => noDatabaseResult
  | some (db@(_ :: _)) =>
      -- line 61: `*_resource = calloc(...)`, see `callocResult`.
      let outRes : Option Resource := callocResult allocOk
      -- line 62 reads `if (_resource == NULL)`: it tests the caller's
      -- out-parameter address, not the allocation result `*_resource`; for a
      -- legal call that address is non-NULL, so the branch is never taken and
      -- an allocation failure goes undetected here.
      if (false : Bool) then
        doneBlock { status := -FAILURE, out := outRes, allocCalled := true,
                    parserCalls := 0, matcherCalled := false, matcherContainerNull := false,
                    parsedAllocs := 0, query_name := none, query_class := none }
      else
        -- line 66: `resource = *_resource` (NULL when the calloc failed).
        -- lines 68-71: `res_name == NULL || xcb_xrm_entry_parse(...) < 0`
        -- (short-circuit: the parser runs only on a non-NULL name).
        match res_name with
        | none =>
          doneBlock { status := -FAILURE, out := outRes, allocCalled := true,
                      parserCalls := 0, matcherCalled := false, matcherContainerNull := false,
                      parsedAllocs := 0, query_name := none, query_class := none }
        | some nameStr =>
          match xcb_xrm_entry_parse nameStr with
          | none =>
            doneBlock { status := -FAILURE, out := outRes, allocCalled := true,
                        parserCalls := 1, matcherCalled := false, matcherContainerNull := false,
                        parsedAllocs := 0, query_name := none, query_class := none }
          | some query_name =>
            -- lines 76-80: NULL or empty class is a placeholder for "absent";
            -- a non-empty class must parse.
            match res_class with
            | none => checkArity db outRes query_name none 1 1
            | some clsStr =>
              if clsStr.data = [] then checkArity db outRes query_name none 1 1
              else
                match xcb_xrm_entry_parse clsStr with
                | none =>
                  doneBlock { status := -1, out := outRes, allocCalled := true,
                              parserCalls := 2, matcherCalled := false,
                              matcherContainerNull := false, parsedAllocs := 1,
                              query_name := some query_name, query_class := none }
                | some query_class => checkArity db outRes query_name (some query_class) 2 2

/-- Embedding of `xcb_xrm_resource_value` (lines 105-110): the textual value
by reference, `NULL` for a `NULL` resource. -/
def xcb_xrm_resource_value (resource : Option Resource) : Option String :=
  match resource with
  | none => none
  | some r => r.value

/-- Embedding of `xcb_xrm_resource_value_long` (lines 119-128): `LONG_MIN`
for a `NULL` resource, else the `str2long` parse of the value, `LONG_MIN` on
parse failure. A resource whose value is absent feeds `NULL` to `str2long`,
undefined in C; it is modelled as a failing parse. -/
def xcb_xrm_resource_value_long (resource : Option Resource) : Int :=
  match resource with
  | none => LONG_MIN
  | some r =>
    match r.value with
    | none => LONG_MIN
    | some s =>
      match str2long s with
      | some converted => converted
      | none => LONG_MIN

/-- Embedding of `xcb_xrm_resource_value_bool` (lines 144-168): `false` for
a `NULL` resource; else first the integer parse (its truthiness on success,
line 151's C conversion of `long` to `bool`), then the case-insensitive
signal words, then the `false` default of line 167. A resource whose value
is absent feeds `NULL` to `str2long`/`strcasecmp`, undefined in C; it is
modelled as all tests failing. -/
def xcb_xrm_resource_value_bool (resource : Option Resource) : Bool :=
  match resource with
  | none => false
  | some r =>
    match r.value with
    | none => false
    | some s =>
      match str2long s with
      | some converted => converted != 0
      | none =>
        if strcaseEq s "true" || strcaseEq s "on" || strcaseEq s "yes" then true
        else if strcaseEq s "false" || strcaseEq s "off" || strcaseEq s "no" then false
        else false

/-- One deallocation event of `xcb_xrm_resource_free`: the owned textual
payload, or the resource container itself. -/
inductive FreeEvent where
  | payload
  | container

/-- Embedding of `xcb_xrm_resource_free` (lines 175-181) as its sequence of
deallocation events: a no-op on `NULL`, otherwise `FREE(resource->value)`
followed by `FREE(resource)`. -/
def xcb_xrm_resource_free (resource : Option Resource) : List FreeEvent :=
  match resource with
  | none => []
  | some _ => [FreeEvent.payload, FreeEvent.container]

/-- The boolean-coercion rules exactly as the spec words them, to be compared
with the embedded `xcb_xrm_resource_value_bool`: (a) if the integer parse of
the whole text succeeds, the result is the truthiness of that integer;
(b) a case-insensitive exact match against the words "true", "on", "yes"
gives `true`; (c) against "false", "off", "no" gives `false`; (d) otherwise
default to `false`. -/
def as_boolean_spec (s : String) : Bool :=
  match str2long s with
  | some n => decide (n ≠ 0)
  | none =>
    if (["true", "on", "yes"].any fun w => strcaseEq s w) then true
    else if (["false", "off", "no"].any fun w => strcaseEq s w) then false
    else false

/-- The integer-coercion rule exactly as the spec words it, to be compared
with the embedded `xcb_xrm_resource_value_long`: the base-10 integer parse of
the entire text on success, the minimum-integer sentinel on any failure. -/
def as_integer_spec (s : String) : Int :=
  (str2long s).getD LONG_MIN

/-! Helper lemmas shared by the claim theorems. -/

/-- The modelled matcher's status is always `SUCCESS`: "no match" is surfaced
as an absent value, not as a negative status. -/
theorem match_status_success (db : Database) (query_name : List String)
    (query_class : Option (List String)) :
    (xcb_xrm_match db query_name query_class).1 = SUCCESS := by
  unfold xcb_xrm_match
  cases db.find? (fun e => e.components == query_name) <;> rfl

/-- A successfully parsed query string is non-empty, so a successfully
parsed class query is never the empty-string placeholder. -/
theorem entry_parse_ne_nil {s : String} {q : List String}
    (h : xcb_xrm_entry_parse s = some q) : s.data ≠ [] := by
  intro hs
  unfold xcb_xrm_entry_parse at h
  simp [hs] at h

/-- Path equation for lines 68-71 with a NULL name query: `done:` is reached
with `-FAILURE`, no parser call, and no live query. -/
theorem resource_get_eq_name_null (e : DatabaseEntry) (db : Database)
    (res_class : Option String) (allocOk : Bool) :
    xcb_xrm_resource_get (some (e :: db)) none res_class allocOk =
      doneBlock { status := -FAILURE, out := callocResult allocOk, allocCalled := true,
                  parserCalls := 0, matcherCalled := false, matcherContainerNull := false,
                  parsedAllocs := 0, query_name := none, query_class := none } := rfl

/-- Path equation for lines 68-71 with a name query the parser rejects. -/
theorem resource_get_eq_name_parse_fail (e : DatabaseEntry) (db : Database)
    (nameStr : String) (res_class : Option String) (allocOk : Bool)
    (hp : xcb_xrm_entry_parse nameStr = none) :
    xcb_xrm_resource_get (some (e :: db)) (some nameStr) res_class allocOk =
      doneBlock { status := -FAILURE, out := callocResult allocOk, allocCalled := true,
                  parserCalls := 1, matcherCalled := false, matcherContainerNull := false,
                  parsedAllocs := 0, query_name := none, query_class := none } := by
  simp [xcb_xrm_resource_get, hp]

/-- Path equation for the matcher invocation (line 91) with the class query
absent (NULL). -/
theorem resource_get_eq_class_absent (e : DatabaseEntry) (db : Database)
    (nameStr : String) (qn : List String) (allocOk : Bool)
    (hp : xcb_xrm_entry_parse nameStr = some qn) :
    xcb_xrm_resource_get (some (e :: db)) (some nameStr) none allocOk =
      doneBlock { status := (xcb_xrm_match (e :: db) qn none).1,
                  out := storeValue (callocResult allocOk) (xcb_xrm_match (e :: db) qn none).2,
                  allocCalled := true, parserCalls := 1, matcherCalled := true,
                  matcherContainerNull := (callocResult allocOk).isNone,
                  parsedAllocs := 1, query_name := some qn, query_class := none } := by
  simp [xcb_xrm_resource_get, checkArity, runMatch, hp]

/-- Path equation for the matcher invocation with the empty-string class
placeholder (lines 76-80). -/
theorem resource_get_eq_class_empty (e : DatabaseEntry) (db : Database)
    (nameStr clsStr : String) (qn : List String) (allocOk : Bool)
    (hp : xcb_xrm_entry_parse nameStr = some qn) (hcd : clsStr.data = []) :
    xcb_xrm_resource_get (some (e :: db)) (some nameStr) (some clsStr) allocOk =
      doneBlock { status := (xcb_xrm_match (e :: db) qn none).1,
                  out := storeValue (callocResult allocOk) (xcb_xrm_match (e :: db) qn none).2,
                  allocCalled := true, parserCalls := 1, matcherCalled := true,
                  matcherContainerNull := (callocResult allocOk).isNone,
                  parsedAllocs := 1, query_name := some qn, query_class := none } := by
  simp [xcb_xrm_resource_get, checkArity, runMatch, hp, hcd]

/-- Path equation for lines 76-80 with a class query the parser rejects. -/
theorem resource_get_eq_class_parse_fail (e : DatabaseEntry) (db : Database)
    (nameStr clsStr : String) (qn : List String) (allocOk : Bool)
    (hp : xcb_xrm_entry_parse nameStr = some qn) (hcd : clsStr.data ≠ [])
    (hc : xcb_xrm_entry_parse clsStr = none) :
    xcb_xrm_resource_get (some (e :: db)) (some nameStr) (some clsStr) allocOk =
      doneBlock { status := -1, out := callocResult allocOk, allocCalled := true,
                  parserCalls := 2, matcherCalled := false, matcherContainerNull := false,
                  parsedAllocs := 1, query_name := some qn, query_class := none } := by
  simp [xcb_xrm_resource_get, hp, hcd, hc]

/-- Path equation for the arity check of lines 85-89 when the component
counts differ. -/
theorem resource_get_eq_arity_differs (e : DatabaseEntry) (db : Database)
    (nameStr clsStr : String) (qn qc : List String) (allocOk : Bool)
    (hp : xcb_xrm_entry_parse nameStr = some qn)
    (hc : xcb_xrm_entry_parse clsStr = some qc)
    (hlen : xcb_xrm_entry_num_components qn ≠ xcb_xrm_entry_num_components qc) :
    xcb_xrm_resource_get (some (e :: db)) (some nameStr) (some clsStr) allocOk =
      doneBlock { status := -1, out := callocResult allocOk, allocCalled := true,
                  parserCalls := 2, matcherCalled := false, matcherContainerNull := false,
                  parsedAllocs := 2, query_name := some qn, query_class := some qc } := by
  have hcd : clsStr.data ≠ [] := entry_parse_ne_nil hc
  simp [xcb_xrm_resource_get, checkArity, hp, hcd, hc, hlen]

/-- Path equation for the matcher invocation with a parsed class query of
matching arity. -/
theorem resource_get_eq_match_with_class (e : DatabaseEntry) (db : Database)
    (nameStr clsStr : String) (qn qc : List String) (allocOk : Bool)
    (hp : xcb_xrm_entry_parse nameStr = some qn)
    (hc : xcb_xrm_entry_parse clsStr = some qc)
    (hlen : xcb_xrm_entry_num_components qn = xcb_xrm_entry_num_components qc) :
    xcb_xrm_resource_get (some (e :: db)) (some nameStr) (some clsStr) allocOk =
      doneBlock { status := (xcb_xrm_match (e :: db) qn (some qc)).1,
                  out := storeValue (callocResult allocOk)
                           (xcb_xrm_match (e :: db) qn (some qc)).2,
                  allocCalled := true, parserCalls := 2, matcherCalled := true,
                  matcherContainerNull := (callocResult allocOk).isNone,
                  parsedAllocs := 2, query_name := some qn, query_class := some qc } := by
  have hcd : clsStr.data ≠ [] := entry_parse_ne_nil hc
  simp [xcb_xrm_resource_get, checkArity, runMatch, hp, hcd, hc, hlen]

/-- Claim C8: each of the three accessors applied to a NULL resource is total
and returns its empty sentinel without dereferencing the input: `as_text`
gives absent, `as_integer` gives `LONG_MIN`, `as_boolean` gives `false`. -/
theorem accessors_on_null_resource :
    xcb_xrm_resource_value none = none ∧
    xcb_xrm_resource_value_long none = LONG_MIN ∧
    xcb_xrm_resource_value_bool none = false :=
  ⟨rfl, rfl, rfl⟩

/-- Claim C10: `xcb_xrm_resource_free` on a NULL resource is a no-op, and on
a non-NULL resource it releases the owned textual payload first and then the
resource container itself. -/
theorem resource_free_null_noop_and_order :
    xcb_xrm_resource_free none = [] ∧
    ∀ r : Resource,
      xcb_xrm_resource_free (some r) = [FreeEvent.payload, FreeEvent.container] :=
  ⟨rfl, fun _ => rfl⟩

/-- Claim C9: on every exit path of `xcb_xrm_resource_get` — success,
malformed queries, arity mismatch, and the matcher invocation — the number
of parser-produced intermediate query representations allocated during the
call equals the number released at the `done:` block, so no path returns
with a live parsed query. -/
theorem resource_get_releases_parsed_queries (database : Option Database)
    (res_name res_class : Option String) (allocOk : Bool) :
    (xcb_xrm_resource_get database res_name res_class allocOk).parsedAllocs =
      (xcb_xrm_resource_get database res_name res_class allocOk).parsedFrees := by
  rcases database with _ | (_ | ⟨e, db⟩)
  · rfl
  · rfl
  · rcases res_name with _ | nameStr
    · rw [resource_get_eq_name_null]; rfl
    · rcases hp : xcb_xrm_entry_parse nameStr with _ | qn
      · rw [resource_get_eq_name_parse_fail e db nameStr res_class allocOk hp]; rfl
      · rcases res_class with _ | clsStr
        · rw [resource_get_eq_class_absent e db nameStr qn allocOk hp]; rfl
        · by_cases hcd : clsStr.data = []
          · rw [resource_get_eq_class_empty e db nameStr clsStr qn allocOk hp hcd]; rfl
          · rcases hc : xcb_xrm_entry_parse clsStr with _ | qc
            · rw [resource_get_eq_class_parse_fail e db nameStr clsStr qn allocOk hp hcd hc]
              rfl
            · by_cases hlen :
                  xcb_xrm_entry_num_components qn ≠ xcb_xrm_entry_num_components qc
              · rw [resource_get_eq_arity_differs e db nameStr clsStr qn qc allocOk hp hc hlen]
                rfl
              · rw [resource_get_eq_match_with_class e db nameStr clsStr qn qc allocOk hp hc
                      (not_not.mp hlen)]
                rfl

/-- Claim C5: for a NULL or empty database, `xcb_xrm_resource_get` sets the
output resource pointer to NULL and returns a negative status, whatever the
name and class query arguments; no allocation, parsing, or matching occurs. -/
theorem resource_get_no_database (database : Option Database)
    (res_name res_class : Option String) (allocOk : Bool)
    (h : database = none ∨ database = some []) :
    (xcb_xrm_resource_get database res_name res_class allocOk).status < 0 ∧
    (xcb_xrm_resource_get database res_name res_class allocOk).out = none ∧
    (xcb_xrm_resource_get database res_name res_class allocOk).allocCalled = false ∧
    (xcb_xrm_resource_get database res_name res_class allocOk).parserCalls = 0 ∧
    (xcb_xrm_resource_get database res_name res_class allocOk).matcherCalled = false := by
  rcases h with h | h <;> subst h <;>
    exact ⟨by norm_num [xcb_xrm_resource_get, noDatabaseResult, FAILURE], rfl, rfl, rfl, rfl⟩

/-- Witness for C5 at the NULL database. -/
theorem resource_get_no_database_witness :
    ((none : Option Database) = none ∨ (none : Option Database) = some []) ∧
    ((xcb_xrm_resource_get none (some "a.b") (some "c.d") true).status < 0 ∧
     (xcb_xrm_resource_get none (some "a.b") (some "c.d") true).out = none ∧
     (xcb_xrm_resource_get none (some "a.b") (some "c.d") true).allocCalled = false ∧
     (xcb_xrm_resource_get none (some "a.b") (some "c.d") true).parserCalls = 0 ∧
     (xcb_xrm_resource_get none (some "a.b") (some "c.d") true).matcherCalled = false) :=
  ⟨Or.inl rfl, resource_get_no_database none (some "a.b") (some "c.d") true (Or.inl rfl)⟩

/-- Claim C1 counterexample: with a non-empty database and a NULL name query
the call fails with a negative status, yet the caller's output resource
pointer is the non-NULL container allocated at line 61: the claim that a
failing call never hands the caller a non-null resource is false as stated. -/
theorem resource_get_failure_nonnull_out :
    (xcb_xrm_resource_get (some [⟨["a"], "v"⟩]) none none true).status < 0 ∧
    (xcb_xrm_resource_get (some [⟨["a"], "v"⟩]) none none true).out ≠ none := by
  decide

/-- Claim C1 (amended): whenever `xcb_xrm_resource_get` returns a negative
status, the caller's output resource pointer is either NULL (failure at the
database check, or a failed allocation) or points to the freshly allocated
resource whose value is still absent; a failing call never hands the caller
a resource carrying a resolved value. -/
theorem resource_get_failure_out_valueless (database : Option Database)
    (res_name res_class : Option String) (allocOk : Bool)
    (h : (xcb_xrm_resource_get database res_name res_class allocOk).status < 0) :
    (xcb_xrm_resource_get database res_name res_class allocOk).out = none ∨
    (xcb_xrm_resource_get database res_name res_class allocOk).out =
      some { value := none } := by
  rcases database with _ | (_ | ⟨e, db⟩)
  · exact Or.inl rfl
  · exact Or.inl rfl
  · rcases res_name with _ | nameStr
    · rw [resource_get_eq_name_null]
      cases allocOk
      · exact Or.inl rfl
      · exact Or.inr rfl
    · rcases hp : xcb_xrm_entry_parse nameStr with _ | qn
      · rw [resource_get_eq_name_parse_fail e db nameStr res_class allocOk hp]
        cases allocOk
        · exact Or.inl rfl
        · exact Or.inr rfl
      · rcases res_class with _ | clsStr
        · rw [resource_get_eq_class_absent e db nameStr qn allocOk hp] at h
          simp [doneBlock, match_status_success, SUCCESS] at h
        · by_cases hcd : clsStr.data = []
          · rw [resource_get_eq_class_empty e db nameStr clsStr qn allocOk hp hcd] at h
            simp [doneBlock, match_status_success, SUCCESS] at h
          · rcases hc : xcb_xrm_entry_parse clsStr with _ | qc
            · rw [resource_get_eq_class_parse_fail e db nameStr clsStr qn allocOk hp hcd hc]
              cases allocOk
              · exact Or.inl rfl
              · exact Or.inr rfl
            · by_cases hlen :
                  xcb_xrm_entry_num_components qn ≠ xcb_xrm_entry_num_components qc
              · rw [resource_get_eq_arity_differs e db nameStr clsStr qn qc allocOk hp hc hlen]
                cases allocOk
                · exact Or.inl rfl
                · exact Or.inr rfl
              · rw [resource_get_eq_match_with_class e db nameStr clsStr qn qc allocOk hp hc
                      (not_not.mp hlen)] at h
                simp [doneBlock, match_status_success, SUCCESS] at h

/-- Witness for the amended C1 at a call that fails after allocation. -/
theorem resource_get_failure_out_valueless_witness :
    (xcb_xrm_resource_get (some [⟨["a"], "v"⟩]) none none true).status < 0 ∧
    ((xcb_xrm_resource_get (some [⟨["a"], "v"⟩]) none none true).out = none ∨
     (xcb_xrm_resource_get (some [⟨["a"], "v"⟩]) none none true).out =
       some { value := none }) :=
  ⟨by decide, resource_get_failure_out_valueless (some [⟨["a"], "v"⟩]) none none true
    (by decide)⟩

/-- Claim C2 (code bug): line 62 tests the caller's out-parameter
`_resource` instead of the allocation result `*_resource`, so a failed
`calloc` is not detected: instead of terminating with a negative status, the
call invokes the parser and then the matching engine with a NULL resource
container, and returns the matcher's non-negative status. -/
theorem resource_get_alloc_failure_undetected :
    (xcb_xrm_resource_get (some [⟨["x"], "v"⟩]) (some "x") none false).matcherCalled
        = true ∧
    (xcb_xrm_resource_get (some [⟨["x"], "v"⟩]) (some "x") none false).matcherContainerNull
        = true ∧
    (xcb_xrm_resource_get (some [⟨["x"], "v"⟩]) (some "x") none false).parserCalls = 1 ∧
    0 ≤ (xcb_xrm_resource_get (some [⟨["x"], "v"⟩]) (some "x") none false).status := by
  decide

/-- Claim C3: for every non-NULL, non-empty database and every name query
that parses into a single-component sequence, with the class query absent
and the allocation succeeding, `xcb_xrm_resource_get` returns a non-NULL
resource and a non-negative status — a "no match" outcome included, which
is surfaced as a valid resource with an absent value, not as an error. -/
theorem resource_get_single_component_success (db : Database) (name : String)
    (cs : List String) (hdb : db ≠ []) (hp : xcb_xrm_entry_parse name = some cs)
    (h1 : cs.length = 1) :
    (xcb_xrm_resource_get (some db) (some name) none true).out ≠ none ∧
    0 ≤ (xcb_xrm_resource_get (some db) (some name) none true).status := by
  rcases db with _ | ⟨e, rest⟩
  · exact absurd rfl hdb
  · rw [resource_get_eq_class_absent e rest name cs true hp]
    constructor
    · simp [doneBlock, storeValue, callocResult]
    · simp [doneBlock, match_status_success, SUCCESS]

/-- Witness for C3 on a one-entry database, where the single-component query
resolves to the stored value. -/
theorem resource_get_single_component_success_witness :
    ([⟨["x"], "v"⟩] : Database) ≠ [] ∧
    xcb_xrm_entry_parse "x" = some ["x"] ∧
    (["x"] : List String).length = 1 ∧
    ((xcb_xrm_resource_get (some [⟨["x"], "v"⟩]) (some "x") none true).out ≠ none ∧
     0 ≤ (xcb_xrm_resource_get (some [⟨["x"], "v"⟩]) (some "x") none true).status) :=
  ⟨List.cons_ne_nil _ _, by decide, rfl,
   resource_get_single_component_success [⟨["x"], "v"⟩] "x" ["x"]
     (List.cons_ne_nil _ _) (by decide) rfl⟩

/-- Claim C4: for every database and every pair of name and class query
strings that both parse successfully but into differing component counts,
`xcb_xrm_resource_get` returns a negative status and the matching engine is
never invoked for that call. -/
theorem resource_get_arity_mismatch (database : Option Database) (name cls : String)
    (qn qc : List String) (allocOk : Bool)
    (hn : xcb_xrm_entry_parse name = some qn) (hc : xcb_xrm_entry_parse cls = some qc)
    (hne : qn.length ≠ qc.length) :
    (xcb_xrm_resource_get database (some name) (some cls) allocOk).status < 0 ∧
    (xcb_xrm_resource_get database (some name) (some cls) allocOk).matcherCalled
      = false := by
  have hlen : xcb_xrm_entry_num_components qn ≠ xcb_xrm_entry_num_components qc := hne
  rcases database with _ | (_ | ⟨e, db⟩)
  · exact ⟨by norm_num [xcb_xrm_resource_get, noDatabaseResult, FAILURE], rfl⟩
  · exact ⟨by norm_num [xcb_xrm_resource_get, noDatabaseResult, FAILURE], rfl⟩
  · rw [resource_get_eq_arity_differs e db name cls qn qc allocOk hn hc hlen]
    exact ⟨by norm_num [doneBlock], rfl⟩

/-- Witness for C4: name "a.b" has two components, class "x" has one. -/
theorem resource_get_arity_mismatch_witness :
    xcb_xrm_entry_parse "a.b" = some ["a", "b"] ∧
    xcb_xrm_entry_parse "x" = some ["x"] ∧
    (["a", "b"] : List String).length ≠ (["x"] : List String).length ∧
    ((xcb_xrm_resource_get (some [⟨["a"], "v"⟩]) (some "a.b") (some "x") true).status < 0 ∧
     (xcb_xrm_resource_get (some [⟨["a"], "v"⟩]) (some "a.b") (some "x") true).matcherCalled
       = false) :=
  ⟨by decide, by decide, by decide,
   resource_get_arity_mismatch (some [⟨["a"], "v"⟩]) "a.b" "x" ["a", "b"] ["x"] true
     (by decide) (by decide) (by decide)⟩

/-- Claim C6: for every non-NULL resource carrying a textual value,
`xcb_xrm_resource_value_bool` evaluates exactly the spec's ordered rules and
returns at the first that applies: the truthiness of a successful whole-text
base-10 integer parse; else `true` on a case-insensitive match of "true",
"on", "yes"; else `false` on one of "false", "off", "no"; else the `false`
default. -/
theorem value_bool_follows_spec (r : Resource) (s : String) (h : r.value = some s) :
    xcb_xrm_resource_value_bool (some r) = as_boolean_spec s := by
  obtain ⟨v⟩ := r
  simp only at h
  subst h
  rcases hl : str2long s with _ | n
  · simp [xcb_xrm_resource_value_bool, as_boolean_spec, hl, Bool.or_assoc]
  · by_cases hn : n = 0 <;>
      simp [xcb_xrm_resource_value_bool, as_boolean_spec, hl, hn]

/-- Witness for C6 at the spec's own example "YES". -/
theorem value_bool_follows_spec_witness :
    ({ value := some "YES" } : Resource).value = some "YES" ∧
    xcb_xrm_resource_value_bool (some { value := some "YES" }) = as_boolean_spec "YES" ∧
    xcb_xrm_resource_value_bool (some { value := some "YES" }) = true :=
  ⟨rfl, value_bool_follows_spec { value := some "YES" } "YES" rfl, by decide⟩

/-- Claim C7: for every non-NULL resource carrying a textual value,
`xcb_xrm_resource_value_long` parses the entire text as a base-10 integer
and returns the parsed value on success, and on any parse failure returns
the minimum representable long as sentinel. -/
theorem value_long_follows_spec (r : Resource) (s : String) (h : r.value = some s) :
    xcb_xrm_resource_value_long (some r) = as_integer_spec s := by
  obtain ⟨v⟩ := r
  simp only at h
  subst h
  rcases hl : str2long s with _ | n <;>
    simp [xcb_xrm_resource_value_long, as_integer_spec, hl]

/-- Witness for C7 at the spec's examples: "42" parses to 42; for contrast
the sentinel on "abc" is also evaluated. -/
theorem value_long_follows_spec_witness :
    ({ value := some "42" } : Resource).value = some "42" ∧
    xcb_xrm_resource_value_long (some { value := some "42" }) = as_integer_spec "42" ∧
    xcb_xrm_resource_value_long (some { value := some "42" }) = 42 ∧
    xcb_xrm_resource_value_long (some { value := some "abc" }) = LONG_MIN :=
  ⟨rfl, value_long_follows_spec { value := some "42" } "42" rfl, by decide, by decide⟩

end XcbXrm
